import Mathlib

/-!
Verification development for the text feature-extraction and calibrated
classification engine of the ai-integrity-checker repository
(src/lib/aiFeatures.ts and src/lib/citations.ts).

JavaScript numbers are modelled as rationals (ℚ) in the pure feature
pipeline and as reals (ℝ) where the code takes square roots (the
Euclidean distance of the calibration classifier).  Strings are modelled
as lists of characters; the regular expressions of the source are
translated into explicit scanning functions over character lists.
-/

namespace AIC

/-- Numeric clamp to the unit interval, from `clamp01` in src/lib/aiFeatures.ts. -/
def clamp01 (x : ℚ) : ℚ := max 0 (min 1 x)

/-- Sentence-terminating characters of the segmentation regex in
src/lib/aiFeatures.ts, the class `[.!?]`. -/
def isTerminator (c : Char) : Bool := c == '.' || c == '!' || c == '?'

/-- Whitespace characters removed by String.prototype.trim (ASCII fragment). -/
def isSpaceChar (c : Char) : Bool := c == ' ' || c == '\t' || c == '\n' || c == '\r'

/-- Trim whitespace from both ends, modelling `.trim()`. -/
def trimChars (cs : List Char) : List Char :=
  ((cs.dropWhile isSpaceChar).reverse.dropWhile isSpaceChar).reverse

/-- A sentence span as produced by `splitSentencesWithOffsets`: the trimmed
sentence text plus the start/end offsets of the raw regex match. -/
structure SentenceSpan where
  sentence : List Char
  start : Nat
  stop : Nat
deriving DecidableEq

/-- The matches of the regex `[^.!?]+[.!?]+|\s*[^.!?]+$` scanned from
position `pos`: unmatched terminator characters are skipped, a maximal
run of non-terminators together with the following maximal run of
terminators forms one raw match, and a trailing terminator-free fragment
forms a final match.  Each match is recorded trimmed with its offsets,
as in the loop body of `splitSentencesWithOffsets`.  The fuel parameter
makes the recursion structural; each step consumes at least one
character, so fuel exceeding the list length is never exhausted. -/
def segmentFromFuel : Nat → Nat → List Char → List SentenceSpan
  | 0, _, _ => []
  | _ + 1, _, [] => []
  | fuel + 1, pos, c :: cs =>
    if isTerminator c then
      segmentFromFuel fuel (pos + 1) cs
    else
      let body := c :: cs.takeWhile (fun x => !isTerminator x)
      let rest := cs.dropWhile (fun x => !isTerminator x)
      let raw := body ++ rest.takeWhile isTerminator
      ⟨trimChars raw, pos, pos + raw.length⟩ ::
        segmentFromFuel fuel (pos + raw.length) (rest.dropWhile isTerminator)

/-- Regex matching from a starting position, with sufficient fuel. -/
def segmentFrom (pos : Nat) (cs : List Char) : List SentenceSpan :=
  segmentFromFuel (cs.length + 1) pos cs

/-- `splitSentencesWithOffsets` from src/lib/aiFeatures.ts: regex matches,
trimmed, with empty-after-trim matches dropped. -/
def splitSentencesWithOffsets (cs : List Char) : List SentenceSpan :=
  (segmentFrom 0 cs).filter (fun s => !s.sentence.isEmpty)

/-- ASCII lower-casing of a character list, modelling `.toLowerCase()`. -/
def lowerChars (cs : List Char) : List Char := cs.map Char.toLower

/-- The apostrophe character (code point 39). -/
def apos : Char := Char.ofNat 39

/-- A character kept by the tokenizer split class (lower-case letters,
digits, and the apostrophe), after lower-casing. -/
def isTokenChar (c : Char) : Bool := c.isLower || c.isDigit || c == apos

/-- Maximal runs of characters satisfying `p`, i.e. the non-empty pieces of
a split on the complement class.  The fuel parameter makes the recursion
structural; each step consumes at least one character, so fuel exceeding
the list length is never exhausted. -/
def splitRunsFuel (p : Char → Bool) : Nat → List Char → List (List Char)
  | 0, _ => []
  | _ + 1, [] => []
  | fuel + 1, c :: cs =>
    if p c then
      (c :: cs.takeWhile p) :: splitRunsFuel p fuel (cs.dropWhile p)
    else
      splitRunsFuel p fuel cs

/-- Maximal runs of characters satisfying `p`, with sufficient fuel. -/
def splitRuns (p : Char → Bool) (cs : List Char) : List (List Char) :=
  splitRunsFuel p (cs.length + 1) cs

/-- `words` from src/lib/aiFeatures.ts: lower-case, split on runs of
non-alphanumeric/apostrophe characters, drop empty tokens. -/
def words (s : List Char) : List (List Char) := splitRuns isTokenChar (lowerChars s)

/-- `repetition`: one minus the distinct-token ratio. -/
def repetition (s : List Char) : ℚ :=
  1 - ((words s).dedup.length : ℚ) / ((max (words s).length 1 : ℕ) : ℚ)

/-- `vocabDiversity`: distinct-token ratio. -/
def vocabDiversity (s : List Char) : ℚ :=
  ((words s).dedup.length : ℚ) / ((max (words s).length 1 : ℕ) : ℚ)

/-- Whether `pre` is a leading fragment of the second list. -/
def startsWithB : List Char → List Char → Bool
  | [], _ => true
  | _ :: _, [] => false
  | a :: as, b :: bs => a == b && startsWithB as bs

/-- Whether `needle` occurs contiguously inside the second list,
modelling `String.prototype.includes`. -/
def substrB (needle : List Char) : List Char → Bool
  | [] => startsWithB needle []
  | c :: cs => startsWithB needle (c :: cs) || substrB needle cs

/-- The fixed phrase list of `hasGenericPhrases`. -/
def genericPhrases : List (List Char) :=
  [("in today".data ++ [apos] ++ "s world".data),
   "it is important to note".data,
   "this shows that".data,
   "overall".data,
   "in conclusion".data,
   "a wide range of".data,
   "plays a crucial role".data,
   "significantly".data,
   "various".data,
   "moreover".data,
   "furthermore".data]

/-- `hasGenericPhrases`: case-insensitive containment of any fixed phrase. -/
def hasGenericPhrases (s : List Char) : Bool :=
  genericPhrases.any (fun p => substrB p (lowerChars s))

/-- The fixed transition-word list of `transitionDensity`. -/
def transitionWords : List (List Char) :=
  ["moreover".data, "furthermore".data, "additionally".data,
   "therefore".data, "however".data, "overall".data]

/-- `transitionDensity`: distinct transition words present, halved, capped at 1. -/
def transitionDensity (s : List Char) : ℚ :=
  min (((transitionWords.countP (fun t => substrB t (lowerChars s))) : ℚ) / 2) 1

/-- The `generic` sub-feature of `aiSentenceScore`: 1 when a generic phrase
is present, else 0. -/
def genericScore (s : List Char) : ℚ := if hasGenericPhrases s then 1 else 0

/-- The `uniformLenSignal` sub-feature of `aiSentenceScore`:
`1 - clamp01(|len - avgLen| / max(avgLen, 1))`. -/
def uniformLenSignal (s : List Char) (avgLen : ℚ) : ℚ :=
  1 - clamp01 (|(s.length : ℚ) - avgLen| / max avgLen 1)

/-- The record returned by `aiSentenceScore`. -/
structure SentenceEval where
  score : ℚ
  reasons : List String
  rep : ℚ
  vdiv : ℚ
  generic : ℚ
  trans : ℚ
  uniformLenSignal : ℚ
deriving DecidableEq

/-- `aiSentenceScore` from src/lib/aiFeatures.ts: the weighted linear
combination of the five sub-features, clamped, plus the threshold-gated
reason strings. -/
def aiSentenceScore (sentence : List Char) (avgLen : ℚ) : SentenceEval :=
  let rep := repetition sentence
  let vdiv := vocabDiversity sentence
  let generic := genericScore sentence
  let trans := transitionDensity sentence
  let uniform := uniformLenSignal sentence avgLen
  let raw := 1.25 * rep + 1.10 * (1 - vdiv) + 0.80 * uniform + 0.90 * generic + 0.70 * trans
  let score := clamp01 (raw / 4.5)
  let reasons :=
    (if rep > 0.35 then ["Repetitive word patterns"] else []) ++
    (if vdiv < 0.55 then ["Low vocabulary diversity"] else []) ++
    (if uniform > 0.8 then ["Sentence length looks very uniform"] else []) ++
    (if generic > 0 then ["Generic filler phrasing"] else []) ++
    (if trans > 0.5 then ["Heavy transition-word use"] else [])
  ⟨score, reasons, rep, vdiv, generic, trans, uniform⟩

/-- The `AIFeatureVector` type of src/lib/aiFeatures.ts. -/
structure AIFeatureVector where
  avgRepetition : ℚ
  avgVocabDiversity : ℚ
  genericRate : ℚ
  transitionRate : ℚ
  uniformity : ℚ
deriving DecidableEq

/-- The `AIModelOutput` type of src/lib/aiFeatures.ts. -/
structure AIModelOutput where
  overallAiScore : ℚ
  threshold : ℚ
  avgSentenceLength : ℚ
  sentenceCount : Nat
  features : AIFeatureVector
deriving DecidableEq

/-- The `AISentenceSignal` type of src/lib/aiFeatures.ts. -/
structure AISentenceSignal where
  sentence : List Char
  start : Nat
  stop : Nat
  score : ℚ
  reasons : List String
deriving DecidableEq

/-- A sentence span together with the spread fields of its `aiSentenceScore`
result, as built in the `scored` map of `analyzeTextForAI`. -/
structure ScoredSentence where
  sentence : List Char
  start : Nat
  stop : Nat
  score : ℚ
  reasons : List String
  rep : ℚ
  vdiv : ℚ
  generic : ℚ
  trans : ℚ
  uniformLenSignal : ℚ
deriving DecidableEq

/-- The pair returned by `analyzeTextForAI`. -/
structure AnalyzeOutput where
  aiSentenceSignals : List AISentenceSignal
  aiModel : AIModelOutput
deriving DecidableEq

/-- The `sents` list of `analyzeTextForAI`. -/
def sentsOf (text : String) : List SentenceSpan := splitSentencesWithOffsets text.data

/-- The `avgLen` value of `analyzeTextForAI`: mean trimmed sentence length,
with the divisor guarded by `max(.,1)`. -/
def avgLenOf (text : String) : ℚ :=
  (((sentsOf text).map (fun s => s.sentence.length)).sum : ℚ) /
    ((max (sentsOf text).length 1 : ℕ) : ℚ)

/-- The `scored` list of `analyzeTextForAI`. -/
def scoredOf (text : String) : List ScoredSentence :=
  (sentsOf text).map (fun s =>
    let r := aiSentenceScore s.sentence (avgLenOf text)
    ⟨s.sentence, s.start, s.stop, r.score, r.reasons,
      r.rep, r.vdiv, r.generic, r.trans, r.uniformLenSignal⟩)

/-- The reason list placed on a flagged sentence: the computed reasons, or
the generic fallback when they are empty. -/
def fallbackReasons (rs : List String) : List String :=
  if rs.isEmpty then ["Pattern-based AI signal"] else rs

/-- The `aiSentenceSignals` list of `analyzeTextForAI`: sentences whose
score reaches the threshold, with fallback reasons. -/
def signalsOf (text : String) (threshold : ℚ) : List AISentenceSignal :=
  ((scoredOf text).filter (fun x => threshold ≤ x.score)).map
    (fun x => ⟨x.sentence, x.start, x.stop, x.score, fallbackReasons x.reasons⟩)

/-- The `avgScore` value of `analyzeTextForAI`. -/
def avgScoreOf (text : String) : ℚ :=
  ((scoredOf text).map (fun s => s.score)).sum / ((max (scoredOf text).length 1 : ℕ) : ℚ)

/-- The `flaggedRatio` value of `analyzeTextForAI`. -/
def flaggedRatioOf (text : String) (threshold : ℚ) : ℚ :=
  ((signalsOf text threshold).length : ℚ) / ((max (scoredOf text).length 1 : ℕ) : ℚ)

/-- The `overallAiScore` value of `analyzeTextForAI`. -/
def overallAiScoreOf (text : String) (threshold : ℚ) : ℚ :=
  clamp01 (0.65 * avgScoreOf text + 0.35 * flaggedRatioOf text threshold)

/-- The document feature vector of `analyzeTextForAI`: sentence-level means
of the sub-features, each independently clamped to the unit interval. -/
def featuresOf (text : String) : AIFeatureVector :=
  let n : ℚ := ((max (scoredOf text).length 1 : ℕ) : ℚ)
  { avgRepetition := clamp01 ((((scoredOf text).map (fun s => s.rep)).sum) / n)
    avgVocabDiversity := clamp01 ((((scoredOf text).map (fun s => s.vdiv)).sum) / n)
    genericRate :=
      clamp01 ((((scoredOf text).map (fun s => if s.generic = 0 then (0 : ℚ) else 1)).sum) / n)
    transitionRate := clamp01 ((((scoredOf text).map (fun s => s.trans)).sum) / n)
    uniformity := clamp01 ((((scoredOf text).map (fun s => s.uniformLenSignal)).sum) / n) }

/-- `analyzeTextForAI` from src/lib/aiFeatures.ts. -/
def analyzeTextForAI (text : String) (threshold : ℚ) : AnalyzeOutput :=
  { aiSentenceSignals := signalsOf text threshold
    aiModel :=
      { overallAiScore := overallAiScoreOf text threshold
        threshold := threshold
        avgSentenceLength := avgLenOf text
        sentenceCount := (scoredOf text).length
        features := featuresOf text } }

/-- The classification labels of `classifyWithCalibration`. -/
inductive Label where
  | human
  | ai
  | uncertain
deriving DecidableEq

/-- The record returned by `classifyWithCalibration`. -/
structure ClassificationResult where
  label : Label
  confidence : ℝ
  dHuman : Option ℝ
  dAI : Option ℝ
  note : String

/-- Real-valued clamp to the unit interval, for the classifier confidence. -/
def clamp01R (x : ℝ) : ℝ := max 0 (min 1 x)

/-- `distance` from src/lib/aiFeatures.ts: Euclidean distance in the
five-dimensional feature space. -/
noncomputable def distance (a b : AIFeatureVector) : ℝ :=
  Real.sqrt (((a.avgRepetition : ℝ) - (b.avgRepetition : ℝ)) ^ 2 +
    ((a.avgVocabDiversity : ℝ) - (b.avgVocabDiversity : ℝ)) ^ 2 +
    ((a.genericRate : ℝ) - (b.genericRate : ℝ)) ^ 2 +
    ((a.transitionRate : ℝ) - (b.transitionRate : ℝ)) ^ 2 +
    ((a.uniformity : ℝ) - (b.uniformity : ℝ)) ^ 2)

/-- The `margin` of `classifyWithCalibration` for probe `f`, human reference
`h` and AI reference `a`: distance-to-AI minus distance-to-human. -/
noncomputable def marginOf (f h a : AIFeatureVector) : ℝ := distance f a - distance f h

/-- `classifyWithCalibration` from src/lib/aiFeatures.ts. -/
noncomputable def classifyWithCalibration (features : AIFeatureVector)
    (human ai : Option AIFeatureVector) : ClassificationResult :=
  match human, ai with
  | some h, some a =>
    let dHuman := distance features h
    let dAI := distance features a
    let margin := dAI - dHuman
    let conf := clamp01R (|margin| / 0.25)
    if |margin| < 0.06 then
      ⟨.uncertain, conf, some dHuman, some dAI, "Close to both profiles (uncertain)."⟩
    else
      ⟨if margin > 0 then .human else .ai, conf, some dHuman, some dAI,
        "Closer to one reference profile (not proof)."⟩
  | _, _ =>
    ⟨.uncertain, 0, none, none, "Missing calibration profiles. Visit /calibrate."⟩

/-- Exchange the human and ai labels, fixing uncertain. -/
def swapLabel : Label → Label
  | .human => .ai
  | .ai => .human
  | .uncertain => .uncertain

/-- The all-zero feature vector. -/
def zeroFV : AIFeatureVector := ⟨0, 0, 0, 0, 0⟩

/-- A feature vector at unit repetition, zero elsewhere. -/
def oneFV : AIFeatureVector := ⟨1, 0, 0, 0, 0⟩

/-- The issue kinds of src/lib/citations.ts. -/
inductive IssueType where
  | missing_citation
  | needs_quote
deriving DecidableEq

/-- The `CitationIssue` record of src/lib/citations.ts. -/
structure CitationIssue where
  type : IssueType
  message : String
  suggestion : Option String
deriving DecidableEq

/-- A word character of the regex metaclass `\w`: ASCII letters, digits,
underscore. -/
def isWordChar (c : Char) : Bool := c.isAlphanum || c == '_'

/-- Word-boundary test on the left of a match that begins with a word
character: the previous character (if any) is not a word character. -/
def beforeBoundary : Option Char → Bool
  | none => true
  | some c => !isWordChar c

/-- Word-boundary test on the right of a match that ends with a word
character: the next character (if any) is not a word character. -/
def afterBoundary : List Char → Bool
  | [] => true
  | c :: _ => !isWordChar c

/-- Consume a literal from the front of a list, returning the remainder. -/
def consumeLit : List Char → List Char → Option (List Char)
  | [], rest => some rest
  | _ :: _, [] => none
  | t :: ts, c :: cs => if t == c then consumeLit ts cs else none

/-- Whether a literal word occurs at the front, followed by a word boundary. -/
def litBounded (t s : List Char) : Bool :=
  match consumeLit t s with
  | some rest => afterBoundary rest
  | none => false

/-- Try a positional predicate at every position of the list, tracking the
preceding character; models an unanchored regex search. -/
def scanB (p : Option Char → List Char → Bool) : Option Char → List Char → Bool
  | prev, [] => p prev []
  | prev, c :: cs => p prev (c :: cs) || scanB p (some c) cs

/-- Search the whole list with a positional predicate. -/
def searchB (p : Option Char → List Char → Bool) (cs : List Char) : Bool :=
  scanB p none cs

/-- `hasWorksCitedSection`: the case-insensitive search
for `works cited`, `references` or `bibliography` between word boundaries. -/
def hasWorksCitedSection (cs : List Char) : Bool :=
  searchB (fun prev s =>
    beforeBoundary prev &&
      (litBounded "works cited".data s || litBounded "references".data s ||
        litBounded "bibliography".data s))
    (lowerChars cs)

/-- The `hasYear` test of `findCitationIssues`: the regex
`\b(19|20)\d{2}\b`. -/
def hasYear (line : List Char) : Bool :=
  searchB (fun prev s =>
    beforeBoundary prev &&
      (match s with
       | c1 :: c2 :: c3 :: c4 :: rest =>
         ((c1 == '1' && c2 == '9') || (c1 == '2' && c2 == '0')) &&
           c3.isDigit && c4.isDigit && afterBoundary rest
       | _ => false))
    line

/-- A match of the regex `\b\d+(\.\d+)?%?\b` starting here: a digit run
beginning at a word boundary whose end also sits at a word boundary (the
optional fraction and percent sign never change satisfiability, since a
dot or percent sign already is a non-word character). -/
def digitRunAt (prev : Option Char) (s : List Char) : Bool :=
  beforeBoundary prev &&
    (match s with
     | c :: _ => c.isDigit && afterBoundary (s.dropWhile Char.isDigit)
     | [] => false)

/-- A match of the word alternative `\b(million|billion|percent|%)\b/i`
starting here (on a lower-cased line): one of the three words between
boundaries, or a percent sign with a word character on both sides. -/
def numWordAt (prev : Option Char) (s : List Char) : Bool :=
  (beforeBoundary prev &&
    (litBounded "million".data s || litBounded "billion".data s ||
      litBounded "percent".data s)) ||
  ((match prev with | some c => isWordChar c | none => false) &&
    (match s with
     | c :: rest =>
       c == '%' && (match rest with | d :: _ => isWordChar d | [] => false)
     | [] => false))

/-- The `hasNumber` test of `findCitationIssues`: a bounded digit run, or
one of the quantity words. -/
def hasNumber (line : List Char) : Bool :=
  searchB digitRunAt line || searchB numWordAt (lowerChars line)

/-- Two adjacent digits somewhere in the list. -/
def twoAdjacentDigits : List Char → Bool
  | a :: b :: rest => (a.isDigit && b.isDigit) || twoAdjacentDigits (b :: rest)
  | _ => false

/-- A match of `\([^)]+\d{2,4}[^)]*\)` starting here: an opening
parenthesis whose body (up to the first closing parenthesis, which must
exist) contains two adjacent digits at body position at least one. -/
def parenDigitsAt (_ : Option Char) (s : List Char) : Bool :=
  match s with
  | '(' :: rest =>
    !(rest.dropWhile (fun c => c != ')')).isEmpty &&
      twoAdjacentDigits ((rest.takeWhile (fun c => c != ')')).drop 1)
  | _ => false

/-- A match of `\([A-Z][a-zA-Z-]+[^)]*\)` starting here: an opening
parenthesis whose body starts with an upper-case letter followed by a
letter or hyphen, with a closing parenthesis present. -/
def parenAuthorAt (_ : Option Char) (s : List Char) : Bool :=
  match s with
  | '(' :: rest =>
    !(rest.dropWhile (fun c => c != ')')).isEmpty &&
      (match rest.takeWhile (fun c => c != ')') with
       | c1 :: c2 :: _ => c1.isUpper && (c2.isUpper || c2.isLower || c2 == '-')
       | _ => false)
  | _ => false

/-- A match of `\[\d+\]` starting here. -/
def bracketNumAt (_ : Option Char) (s : List Char) : Bool :=
  match s with
  | '[' :: rest =>
    (match rest with
     | c :: _ =>
       c.isDigit &&
         (match rest.dropWhile Char.isDigit with | ']' :: _ => true | _ => false)
     | [] => false)
  | _ => false

/-- `hasInlineCitation` from src/lib/citations.ts: any of the three inline
citation marker patterns. -/
def hasInlineCitation (line : List Char) : Bool :=
  searchB parenDigitsAt line || searchB parenAuthorAt line || searchB bracketNumAt line

/-- The double-quote character (code point 34). -/
def dquote : Char := Char.ofNat 34

/-- A match of the long-quote regex starting here: a double quote whose body
up to the next double quote (which must exist) has at least ten characters. -/
def longQuoteAt (_ : Option Char) (s : List Char) : Bool :=
  match s with
  | c :: rest =>
    c == dquote &&
      (!(rest.dropWhile (fun x => x != dquote)).isEmpty &&
        decide (10 ≤ (rest.takeWhile (fun x => x != dquote)).length))
  | [] => false

/-- The quoted-span test of `findCitationIssues`. -/
def hasLongQuote (line : List Char) : Bool := searchB longQuoteAt line

/-- Raw line split on `\r?\n`, before trimming. -/
def splitLinesRaw : List Char → List (List Char)
  | [] => [[]]
  | '\r' :: '\n' :: cs => [] :: splitLinesRaw cs
  | '\n' :: cs => [] :: splitLinesRaw cs
  | c :: cs =>
    match splitLinesRaw cs with
    | [] => [[c]]
    | l :: ls => (c :: l) :: ls

/-- `splitLines` from src/lib/citations.ts: split, trim each line, drop
empty lines. -/
def splitLines (cs : List Char) : List (List Char) :=
  ((splitLinesRaw cs).map trimChars).filter (fun l => !l.isEmpty)

/-- The missing works-cited issue record. -/
def wcIssue : CitationIssue :=
  ⟨.missing_citation, "No Works Cited / References section detected.",
    some "Add a Works Cited (MLA) or References (APA) section."⟩

/-- The uncited-statistic issue record. -/
def statIssue : CitationIssue :=
  ⟨.missing_citation, "A statistic or year appears without a citation.",
    some "Add an in-text citation after this sentence."⟩

/-- The uncited-quote issue record. -/
def quoteIssue : CitationIssue :=
  ⟨.needs_quote, "A direct quote appears without a citation.",
    some "Add an in-text citation immediately after the quote."⟩

/-- The statistic/year branch of the line loop of `findCitationIssues`. -/
def statIssuesFor (line : List Char) : List CitationIssue :=
  if ((hasYear line || hasNumber line) && !hasInlineCitation line &&
      decide (10 ≤ line.length)) = true then [statIssue] else []

/-- The quote branch of the line loop of `findCitationIssues`. -/
def quoteIssuesFor (line : List Char) : List CitationIssue :=
  if (hasLongQuote line && !hasInlineCitation line) = true then [quoteIssue] else []

/-- The issue list of `findCitationIssues` before de-duplication. -/
def issuesOf (text : String) : List CitationIssue :=
  (if hasWorksCitedSection text.data then [] else [wcIssue]) ++
    (splitLines text.data).flatMap (fun line => statIssuesFor line ++ quoteIssuesFor line)

/-- De-duplication worker: keep the first occurrence of each message. -/
def dedupGo (seen : List String) : List CitationIssue → List CitationIssue
  | [] => []
  | x :: xs =>
    if x.message ∈ seen then dedupGo seen xs
    else x :: dedupGo (x.message :: seen) xs

/-- The final de-duplication by message of `findCitationIssues`. -/
def dedupByMessage (l : List CitationIssue) : List CitationIssue := dedupGo [] l

/-- `findCitationIssues` from src/lib/citations.ts. -/
def findCitationIssues (text : String) : List CitationIssue :=
  dedupByMessage (issuesOf text)

/-! Theorems. -/

lemma clamp01_nonneg (x : ℚ) : 0 ≤ clamp01 x := le_max_left 0 _

lemma clamp01_le_one (x : ℚ) : clamp01 x ≤ 1 := max_le (by norm_num) (min_le_left 1 x)

/-- C1: For every input text and every threshold, each of the five components
of the document FeatureVector returned by analyzeTextForAI (avgRepetition,
avgVocabDiversity, genericRate, transitionRate, uniformity) and the
overallAiScore lie in the closed interval from 0 to 1. -/
theorem C1_feature_bounds (t : String) (θ : ℚ) :
    (0 ≤ (analyzeTextForAI t θ).aiModel.features.avgRepetition ∧
      (analyzeTextForAI t θ).aiModel.features.avgRepetition ≤ 1) ∧
    (0 ≤ (analyzeTextForAI t θ).aiModel.features.avgVocabDiversity ∧
      (analyzeTextForAI t θ).aiModel.features.avgVocabDiversity ≤ 1) ∧
    (0 ≤ (analyzeTextForAI t θ).aiModel.features.genericRate ∧
      (analyzeTextForAI t θ).aiModel.features.genericRate ≤ 1) ∧
    (0 ≤ (analyzeTextForAI t θ).aiModel.features.transitionRate ∧
      (analyzeTextForAI t θ).aiModel.features.transitionRate ≤ 1) ∧
    (0 ≤ (analyzeTextForAI t θ).aiModel.features.uniformity ∧
      (analyzeTextForAI t θ).aiModel.features.uniformity ≤ 1) ∧
    (0 ≤ (analyzeTextForAI t θ).aiModel.overallAiScore ∧
      (analyzeTextForAI t θ).aiModel.overallAiScore ≤ 1) :=
  ⟨⟨clamp01_nonneg _, clamp01_le_one _⟩, ⟨clamp01_nonneg _, clamp01_le_one _⟩,
    ⟨clamp01_nonneg _, clamp01_le_one _⟩, ⟨clamp01_nonneg _, clamp01_le_one _⟩,
    ⟨clamp01_nonneg _, clamp01_le_one _⟩, ⟨clamp01_nonneg _, clamp01_le_one _⟩⟩

/-- C2: For every sentence, the per-sentence score equals
clamp01((1.25*rep + 1.10*(1 - vocabDiversity) + 0.80*lengthUniformity +
0.90*genericFlag + 0.70*transitionDensity) / 4.5), with the sub-features as
defined in the feature extractor. -/
theorem C2_sentence_score_formula (s : List Char) (avgLen : ℚ) :
    (aiSentenceScore s avgLen).score =
      clamp01 ((1.25 * repetition s + 1.10 * (1 - vocabDiversity s) +
        0.80 * uniformLenSignal s avgLen + 0.90 * genericScore s +
        0.70 * transitionDensity s) / 4.5) := rfl

lemma classify_some_some (f h a : AIFeatureVector) :
    classifyWithCalibration f (some h) (some a) =
      if |marginOf f h a| < 0.06 then
        ⟨.uncertain, clamp01R (|marginOf f h a| / 0.25), some (distance f h),
          some (distance f a), "Close to both profiles (uncertain)."⟩
      else
        ⟨if marginOf f h a > 0 then .human else .ai, clamp01R (|marginOf f h a| / 0.25),
          some (distance f h), some (distance f a),
          "Closer to one reference profile (not proof)."⟩ := rfl

/-- C3: For every probe feature vector and every pair of non-null reference
profiles, swapping the human and AI reference arguments of
classifyWithCalibration negates the margin, swaps the resulting label
between human and ai (leaving uncertain fixed), and leaves the confidence
value unchanged (the two distances are exchanged accordingly). -/
theorem C3_classifier_symmetry (f h a : AIFeatureVector) :
    marginOf f a h = -marginOf f h a ∧
    (classifyWithCalibration f (some a) (some h)).confidence =
      (classifyWithCalibration f (some h) (some a)).confidence ∧
    (classifyWithCalibration f (some a) (some h)).label =
      swapLabel (classifyWithCalibration f (some h) (some a)).label ∧
    (classifyWithCalibration f (some a) (some h)).dHuman =
      (classifyWithCalibration f (some h) (some a)).dAI ∧
    (classifyWithCalibration f (some a) (some h)).dAI =
      (classifyWithCalibration f (some h) (some a)).dHuman := by
  have hm : marginOf f a h = -marginOf f h a := by
    unfold marginOf; ring
  refine ⟨hm, ?_, ?_, ?_, ?_⟩ <;>
    rw [classify_some_some f a h, classify_some_some f h a, hm, abs_neg]
  · split_ifs <;> rfl
  · by_cases hb : |marginOf f h a| < 0.06
    · rw [if_pos hb, if_pos hb]; rfl
    · rw [if_neg hb, if_neg hb]
      have hM0 : marginOf f h a ≠ 0 := by
        intro h0
        rw [h0] at hb
        simp at hb
        linarith
      rcases lt_or_gt_of_ne hM0 with hlt | hgt
      · rw [if_pos (by linarith : -marginOf f h a > 0),
          if_neg (by linarith : ¬marginOf f h a > 0)]
        rfl
      · rw [if_neg (by linarith : ¬(-marginOf f h a > 0)), if_pos hgt]
        rfl
  · split_ifs <;> rfl
  · split_ifs <;> rfl

/-- C4: For every probe feature vector and every pair of non-null reference
profiles such that the absolute difference of the two distances is strictly
below 0.06, classifyWithCalibration returns the uncertain label. -/
theorem C4_uncertainty_band (f h a : AIFeatureVector)
    (hm : |distance f a - distance f h| < 0.06) :
    (classifyWithCalibration f (some h) (some a)).label = Label.uncertain := by
  rw [classify_some_some, if_pos (show |marginOf f h a| < 0.06 from hm)]

theorem C4_uncertainty_band_witness :
    (classifyWithCalibration zeroFV (some zeroFV) (some zeroFV)).label = Label.uncertain :=
  C4_uncertainty_band zeroFV zeroFV zeroFV (by rw [sub_self, abs_zero]; norm_num)

/-- C5: For every probe feature vector, if either reference profile passed to
classifyWithCalibration is null, the result has label uncertain, confidence 0,
and both distances null. -/
theorem C5_missing_calibration (f : AIFeatureVector) (p : Option AIFeatureVector) :
    classifyWithCalibration f none p =
      ⟨.uncertain, 0, none, none, "Missing calibration profiles. Visit /calibrate."⟩ ∧
    classifyWithCalibration f p none =
      ⟨.uncertain, 0, none, none, "Missing calibration profiles. Visit /calibrate."⟩ := by
  constructor
  · rfl
  · cases p <;> rfl

/-- C6: Any text that segments into zero sentences (in particular the empty
string) yields sentenceCount 0, overallAiScore 0, all five feature
components 0 and an empty flagged-sentence list; every divisor of the
aggregation is guarded by max(.,1), so no division by zero occurs. -/
theorem C6_empty_input (t : String) (θ : ℚ) (h : sentsOf t = []) :
    (analyzeTextForAI t θ).aiModel.sentenceCount = 0 ∧
    (analyzeTextForAI t θ).aiModel.overallAiScore = 0 ∧
    (analyzeTextForAI t θ).aiModel.features = ⟨0, 0, 0, 0, 0⟩ ∧
    (analyzeTextForAI t θ).aiSentenceSignals = [] := by
  have hsc : scoredOf t = [] := by simp [scoredOf, h]
  have hsig : signalsOf t θ = [] := by simp [signalsOf, hsc]
  refine ⟨?_, ?_, ?_, ?_⟩
  · simp [analyzeTextForAI, hsc]
  · simp [analyzeTextForAI, overallAiScoreOf, avgScoreOf, flaggedRatioOf, hsc, hsig, clamp01]
  · simp [analyzeTextForAI, featuresOf, hsc, clamp01]
  · simp [analyzeTextForAI, hsig]

theorem C6_empty_input_witness :
    (analyzeTextForAI "" 0).aiModel.sentenceCount = 0 ∧
    (analyzeTextForAI "" 0).aiModel.overallAiScore = 0 ∧
    (analyzeTextForAI "" 0).aiModel.features = ⟨0, 0, 0, 0, 0⟩ ∧
    (analyzeTextForAI "" 0).aiSentenceSignals = [] :=
  C6_empty_input "" 0 (by decide)

/-- C7: For a fixed text and thresholds t1 ≤ t2, the flagged-sentence count at
t2 is at most the count at t1, the document feature vector is identical for
both thresholds, and the flagged list at t2 is exactly the flagged list at t1
re-filtered by the higher threshold (so per-sentence scores are unchanged). -/
theorem C7_threshold_monotone (t : String) (θ1 θ2 : ℚ) (h : θ1 ≤ θ2) :
    (analyzeTextForAI t θ2).aiSentenceSignals.length ≤
      (analyzeTextForAI t θ1).aiSentenceSignals.length ∧
    (analyzeTextForAI t θ2).aiModel.features = (analyzeTextForAI t θ1).aiModel.features ∧
    (analyzeTextForAI t θ2).aiSentenceSignals =
      (analyzeTextForAI t θ1).aiSentenceSignals.filter (fun s => θ2 ≤ s.score) := by
  have key : signalsOf t θ2 = (signalsOf t θ1).filter (fun s => decide (θ2 ≤ s.score)) := by
    unfold signalsOf
    rw [List.filter_map, List.filter_filter]
    congr 1
    apply List.filter_congr
    intro x _
    simp only [Function.comp]
    by_cases hx : θ2 ≤ x.score
    · simp [hx, le_trans h hx]
    · simp [hx]
  refine ⟨?_, rfl, key⟩
  show (signalsOf t θ2).length ≤ (signalsOf t θ1).length
  rw [key]
  exact List.length_filter_le _ _

theorem C7_threshold_monotone_witness :
    (analyzeTextForAI "Hi." 1).aiSentenceSignals.length ≤
      (analyzeTextForAI "Hi." 0).aiSentenceSignals.length ∧
    (analyzeTextForAI "Hi." 1).aiModel.features = (analyzeTextForAI "Hi." 0).aiModel.features ∧
    (analyzeTextForAI "Hi." 1).aiSentenceSignals =
      (analyzeTextForAI "Hi." 0).aiSentenceSignals.filter (fun s => (1:ℚ) ≤ s.score) :=
  C7_threshold_monotone "Hi." 0 1 (by norm_num)

/-- C9: Every sentence in the flagged-sentence list returned by
analyzeTextForAI has a non-empty reasons list: when no per-sub-feature
threshold fired, the single generic fallback reason is used instead. -/
theorem C9_flagged_reasons_nonempty (t : String) (θ : ℚ) (s : AISentenceSignal)
    (hs : s ∈ (analyzeTextForAI t θ).aiSentenceSignals) : s.reasons ≠ [] := by
  have hs' : s ∈ signalsOf t θ := hs
  unfold signalsOf at hs'
  rw [List.mem_map] at hs'
  obtain ⟨x, _, rfl⟩ := hs'
  show fallbackReasons x.reasons ≠ []
  cases hrs : x.reasons with
  | nil => simp [fallbackReasons, hrs]
  | cons b l => simp [fallbackReasons, hrs]

theorem C9_flagged_reasons_nonempty_witness :
    (⟨"Hi.".data, 0, 3, 8/45, ["Sentence length looks very uniform"]⟩ : AISentenceSignal) ∈
      (analyzeTextForAI "Hi." 0).aiSentenceSignals ∧
    (⟨"Hi.".data, 0, 3, 8/45,
      ["Sentence length looks very uniform"]⟩ : AISentenceSignal).reasons ≠ [] := by
  have hsents : sentsOf "Hi." = [⟨"Hi.".data, 0, 3⟩] := by decide
  have havg : avgLenOf "Hi." = 3 := by
    unfold avgLenOf
    rw [hsents]
    norm_num
  have h1 : (words "Hi.".data).dedup.length = 1 := by decide
  have h2 : (words "Hi.".data).length = 1 := by decide
  have h3 : hasGenericPhrases "Hi.".data = false := by decide
  have h4 : transitionWords.countP (fun t => substrB t (lowerChars "Hi.".data)) = 0 := by decide
  have h5 : ("Hi.".data.length : ℕ) = 3 := by decide
  have hev : aiSentenceScore "Hi.".data 3 =
      ⟨8/45, ["Sentence length looks very uniform"], 0, 1, 0, 0, 1⟩ := by
    unfold aiSentenceScore repetition vocabDiversity genericScore transitionDensity
      uniformLenSignal
    rw [h1, h2, h3, h4, h5]
    norm_num [clamp01]
  have hscored : scoredOf "Hi." =
      [⟨"Hi.".data, 0, 3, 8/45, ["Sentence length looks very uniform"], 0, 1, 0, 0, 1⟩] := by
    unfold scoredOf
    rw [hsents, havg]
    simp [hev]
  have hsig : (analyzeTextForAI "Hi." 0).aiSentenceSignals =
      [⟨"Hi.".data, 0, 3, 8/45, ["Sentence length looks very uniform"]⟩] := by
    show signalsOf "Hi." 0 = _
    unfold signalsOf
    rw [hscored, List.filter_cons]
    norm_num
    simp [fallbackReasons]
  have hmem : (⟨"Hi.".data, 0, 3, 8/45,
      ["Sentence length looks very uniform"]⟩ : AISentenceSignal) ∈
      (analyzeTextForAI "Hi." 0).aiSentenceSignals := by
    rw [hsig]
    exact List.mem_singleton.mpr rfl
  exact ⟨hmem, C9_flagged_reasons_nonempty "Hi." 0 _ hmem⟩

/-- C10: Whenever classifyWithCalibration returns a decided label (human or
ai, i.e. not uncertain), its confidence is at least 0.24, since the decision
requires a margin of magnitude at least 0.06 and confidence is
clamp01(margin magnitude / 0.25). -/
theorem C10_confidence_lower_bound (f : AIFeatureVector) (hp ap : Option AIFeatureVector)
    (hl : (classifyWithCalibration f hp ap).label ≠ Label.uncertain) :
    0.24 ≤ (classifyWithCalibration f hp ap).confidence := by
  cases hp with
  | none => exact absurd rfl hl
  | some h =>
    cases ap with
    | none => exact absurd rfl hl
    | some a =>
      rw [classify_some_some] at hl ⊢
      by_cases hb : |marginOf f h a| < 0.06
      · rw [if_pos hb] at hl
        exact absurd rfl hl
      · rw [if_neg hb]
        show (0.24 : ℝ) ≤ clamp01R (|marginOf f h a| / 0.25)
        have h6 : (0.06 : ℝ) ≤ |marginOf f h a| := le_of_not_lt hb
        have hy : (0.24 : ℝ) ≤ |marginOf f h a| / 0.25 := by
          rw [le_div_iff₀ (by norm_num : (0 : ℝ) < 0.25)]
          linarith
        unfold clamp01R
        exact le_trans (le_min (by norm_num) hy) (le_max_right _ _)

theorem C10_confidence_lower_bound_witness :
    0.24 ≤ (classifyWithCalibration zeroFV (some zeroFV) (some oneFV)).confidence :=
  C10_confidence_lower_bound zeroFV (some zeroFV) (some oneFV) (by
    have hm : marginOf zeroFV zeroFV oneFV = 1 := by
      simp [marginOf, distance, zeroFV, oneFV]
    have h1 : ¬|(1 : ℝ)| < 0.06 := by norm_num
    have h2 : (1 : ℝ) > 0 := by norm_num
    simp only [classify_some_some, hm, if_neg h1, if_pos h2]
    decide)

lemma dedupGo_subset (seen : List String) (l : List CitationIssue) :
    ∀ x ∈ dedupGo seen l, x ∈ l := by
  induction l generalizing seen with
  | nil => simp [dedupGo]
  | cons a t ih =>
    intro x hx
    by_cases h : a.message ∈ seen
    · simp only [dedupGo, if_pos h] at hx
      exact List.mem_cons_of_mem a (ih seen x hx)
    · simp only [dedupGo, if_neg h] at hx
      rcases List.mem_cons.mp hx with rfl | hx'
      · exact List.mem_cons_self x t
      · exact List.mem_cons_of_mem a (ih (a.message :: seen) x hx')

lemma dedupGo_mem_message (x : CitationIssue) :
    ∀ (l : List CitationIssue) (seen : List String), x ∈ l → x.message ∉ seen →
      ∃ y ∈ dedupGo seen l, y.message = x.message := by
  intro l
  induction l with
  | nil =>
    intro seen h
    cases h
  | cons a t ih =>
    intro seen hx hs
    by_cases h : a.message ∈ seen
    · rcases List.mem_cons.mp hx with rfl | hxt
      · exact absurd h hs
      · simpa [dedupGo, h] using ih seen hxt hs
    · simp only [dedupGo, if_neg h]
      by_cases hax : x.message = a.message
      · exact ⟨a, List.mem_cons_self a _, hax.symm⟩
      · rcases List.mem_cons.mp hx with rfl | hxt
        · exact absurd rfl hax
        · have hs' : x.message ∉ a.message :: seen := by
            simp [hax, hs]
          obtain ⟨y, hy, hym⟩ := ih (a.message :: seen) hxt hs'
          exact ⟨y, List.mem_cons_of_mem a hy, hym⟩

lemma issuesOf_mem_cases (t : String) (y : CitationIssue) (hy : y ∈ issuesOf t) :
    y = wcIssue ∨ y = statIssue ∨ y = quoteIssue := by
  unfold issuesOf at hy
  rcases List.mem_append.mp hy with h1 | h2
  · left
    revert h1
    split
    · intro h1
      cases h1
    · intro h1
      simpa using h1
  · rw [List.mem_flatMap] at h2
    obtain ⟨line, _, hmem⟩ := h2
    rcases List.mem_append.mp hmem with h3 | h4
    · right; left
      revert h3
      unfold statIssuesFor
      split
      · intro h3
        simpa using h3
      · intro h3
        cases h3
    · right; right
      revert h4
      unfold quoteIssuesFor
      split
      · intro h4
        simpa using h4
      · intro h4
        cases h4

/-- C8 (counterexample): an input text with a non-empty line containing a
numeric claim and no inline citation marker, on which findCitationIssues
nevertheless returns no issues at all: the line is shorter than the
ten-character minimum required by the code. -/
theorem C8_claim_counterexample :
    ("9 million".data ∈ splitLines "references\n9 million".data) ∧
    ("9 million".data ≠ []) ∧
    (hasYear "9 million".data || hasNumber "9 million".data) = true ∧
    hasInlineCitation "9 million".data = false ∧
    findCitationIssues "references\n9 million" = [] := by decide

/-- C8 (amended): for every input text, if some line of the text, after
trimming, contains a 4-digit year or numeric/percentage claim, contains no
inline citation marker, and is at least ten characters long, then
findCitationIssues returns a list containing the missing_citation issue for
a statistic or year without citation. -/
theorem C8_stat_issue_amended (text : String) (line : List Char)
    (hline : line ∈ splitLines text.data)
    (hnum : (hasYear line || hasNumber line) = true)
    (hcit : hasInlineCitation line = false)
    (hlen : 10 ≤ line.length) :
    statIssue ∈ findCitationIssues text := by
  have hmem : statIssue ∈ issuesOf text := by
    unfold issuesOf
    refine List.mem_append_right _ ?_
    rw [List.mem_flatMap]
    refine ⟨line, hline, List.mem_append_left _ ?_⟩
    unfold statIssuesFor
    rw [if_pos]
    · exact List.mem_singleton.mpr rfl
    · rw [hnum, hcit]
      simp [hlen]
  obtain ⟨y, hy, hym⟩ := dedupGo_mem_message statIssue (issuesOf text) [] hmem (by simp)
  have hyl : y ∈ issuesOf text := dedupGo_subset [] (issuesOf text) y hy
  rcases issuesOf_mem_cases text y hyl with rfl | rfl | rfl
  · exact absurd hym (by decide)
  · exact hy
  · exact absurd hym (by decide)

theorem C8_stat_issue_witness :
    statIssue ∈ findCitationIssues "In 2020, 75% of students reported stress." :=
  C8_stat_issue_amended "In 2020, 75% of students reported stress."
    "In 2020, 75% of students reported stress.".data
    (by decide) (by decide) (by decide) (by decide)

end AIC
